import Mathlib

/-!
Shallow embedding of the WhatsApp bulk-sender app (src/app.py).

The two procedures with logic are `get_message_templates` (template lister)
and `send_template_message` plus the send-button handler (bulk sender).
HTTP traffic is modelled by an oracle describing what the underlying
`requests` call does: return a 2xx response, return a non-2xx response
(`raise_for_status` then raises `requests.exceptions.RequestException` with
the response object still bound), or raise during the request itself
(transport failure: the local variable `response` is never bound).
-/

set_option autoImplicit false

namespace App

/-- Minimal JSON values, enough for the payloads the app builds and reads. -/
inductive Json where
  | str : String → Json
  | int : Int → Json
  | bool : Bool → Json
  | null : Json
  | arr : List Json → Json
  | obj : List (String × Json) → Json

/-- Python exceptions that the embedded code can raise. -/
inductive PyError where
  | keyError : String → PyError
  | attributeError : String → PyError
  | typeError : String → PyError
  | unboundLocalError : String → PyError
deriving DecidableEq

/-- Outcome of the `requests.get` call in `get_message_templates`:
a 2xx response with a JSON body, a non-2xx response (so `raise_for_status`
raises), or an exception from the request itself. -/
inductive FetchHttp where
  | ok : Json → FetchHttp
  | httpErr : String → Json → FetchHttp
  | transportErr : String → FetchHttp

/-- What `get_message_templates` reports through `st.error`:
nothing, the `RequestException` message (first handler), or the generic
second handler for any other exception. -/
inductive FetchReport where
  | noError : FetchReport
  | requestError : String → FetchReport
  | unexpectedError : FetchReport

/-- Python `t.get("status")` on an element of the `data` array: a dict
yields the optional value, anything else raises `AttributeError`. -/
def statusGet (t : Json) : Except PyError (Option Json) :=
  match t with
  | .obj kvs => .ok (kvs.lookup "status")
  | _ => .error (.attributeError "get")

/-- Python `t.get("status") == "APPROVED"`: true exactly for the string
value "APPROVED" (case-sensitive; any other value or a missing key
compares unequal). -/
def isApprovedVal (s : Option Json) : Bool :=
  match s with
  | some (.str x) => x == "APPROVED"
  | _ => false

/-- Python `t["name"]`: a dict either yields the value or raises
`KeyError`; anything else raises `TypeError`. -/
def nameIndex (t : Json) : Except PyError Json :=
  match t with
  | .obj kvs =>
    match kvs.lookup "name" with
    | some v => .ok v
    | none => .error (.keyError "name")
  | _ => .error (.typeError "not subscriptable")

/-- The list comprehension
`[t["name"] for t in templates if t.get("status") == "APPROVED"]`:
elements are processed left to right and the first exception aborts the
whole comprehension. -/
def approvedLoop : List Json → Except PyError (List Json)
  | [] => .ok []
  | t :: ts =>
    match statusGet t with
    | .error e => .error e
    | .ok s =>
      if isApprovedVal s then
        match nameIndex t with
        | .error e => .error e
        | .ok n =>
          match approvedLoop ts with
          | .error e => .error e
          | .ok rest => .ok (n :: rest)
      else approvedLoop ts

/-- Python `response.json().get("data", [])`: a dict body yields the value
under "data" (defaulting to the empty list), a non-dict body raises
`AttributeError`. -/
def pyGetData (body : Json) : Except PyError Json :=
  match body with
  | .obj kvs => .ok ((kvs.lookup "data").getD (Json.arr []))
  | _ => .error (.attributeError "get")

/-- Iterating the `data` value in the comprehension. A JSON array yields
its elements; any non-array value is modelled as an error, which matches
the observable behaviour of the Python code (iterating a dict or a string
yields keys or characters, whose `.get` then raises `AttributeError`, so
every non-array `data` value ends in the generic handler and `[]`). -/
def asList : Json → Except PyError (List Json)
  | .arr xs => .ok xs
  | _ => .error (.typeError "not iterable")

/-- Embedding of `get_message_templates` (src/app.py lines 9-36): returns
the list the Python function returns together with what it reported via
`st.error`. A non-2xx response raises inside `raise_for_status` and is
caught by the `RequestException` handler, as is a transport failure; any
exception while reading the body is caught by the generic handler. -/
def get_message_templates (oracle : FetchHttp) : List Json × FetchReport :=
  match oracle with
  | .ok body =>
    match (do
        let d ← pyGetData body
        let ts ← asList d
        approvedLoop ts : Except PyError (List Json)) with
    | .ok approved => (approved, .noError)
    | .error _ => ([], .unexpectedError)
  | .httpErr msg _ => ([], .requestError msg)
  | .transportErr msg => ([], .requestError msg)

/-- An entry of the `data` array that is a JSON object carrying a "name"
key (the shape the listing endpoint returns). -/
def isObjWithName (t : Json) : Bool :=
  match t with
  | .obj kvs => (kvs.lookup "name").isSome
  | _ => false

/-- The filter the comprehension applies to an entry. -/
def approvedStatus (t : Json) : Bool :=
  match t with
  | .obj kvs => isApprovedVal (kvs.lookup "status")
  | _ => false

/-- The value the comprehension extracts from a kept entry. -/
def nameOf (t : Json) : Json :=
  match t with
  | .obj kvs => (kvs.lookup "name").getD Json.null
  | _ => Json.null

lemma approvedLoop_eq (ts : List Json) (h : ∀ t ∈ ts, isObjWithName t = true) :
    approvedLoop ts = .ok ((ts.filter approvedStatus).map nameOf) := by
  induction ts with
  | nil => rfl
  | cons t ts ih =>
    have ht : isObjWithName t = true := h t (List.mem_cons_self t ts)
    have hts : ∀ x ∈ ts, isObjWithName x = true :=
      fun x hx => h x (List.mem_cons_of_mem t hx)
    match t, ht with
    | .obj kvs, ht =>
      rw [isObjWithName] at ht
      rcases Option.isSome_iff_exists.mp ht with ⟨v, hv⟩
      by_cases happ : isApprovedVal (kvs.lookup "status") = true
      · simp [approvedLoop, statusGet, nameIndex, happ, hv, ih hts,
          List.filter_cons, approvedStatus, nameOf]
      · simp [approvedLoop, statusGet, nameIndex,
          Bool.not_eq_true _ ▸ happ, ih hts,
          List.filter_cons, approvedStatus, nameOf, happ]

/-- Python whitespace, as `str.strip` removes it. -/
def isPySpace (c : Char) : Bool :=
  c = ' ' || c = '\t' || c = '\n' || c = '\r' || c = '\x0b' || c = '\x0c'

/-- Python `s.split(sep)` for a one-character separator, over the
character list: splitting the empty string yields one empty field, and
every separator occurrence opens a new field. -/
def splitOnChar (sep : Char) : List Char → List (List Char)
  | [] => [[]]
  | c :: cs =>
    let r := splitOnChar sep cs
    if c = sep then [] :: r
    else
      match r with
      | [] => [[c]]
      | field :: rest => (c :: field) :: rest

/-- Python `var.strip()` over the character list: leading and trailing
whitespace removed. -/
def pyStrip (cs : List Char) : List Char :=
  ((cs.dropWhile isPySpace).reverse.dropWhile isPySpace).reverse

/-- Python `var.strip()` on a string. -/
def pyStripStr (s : String) : String :=
  String.mk (pyStrip s.data)

/-- Python `input.split` on the newline character. -/
def pySplitNL (s : String) : List String :=
  (splitOnChar '\n' s.data).map String.mk

/-- Python truthiness of `var.strip()`: false exactly when the stripped
line is empty. -/
def isBlank (var : String) : Bool :=
  (pyStrip var.data).isEmpty

/-- Variable parsing on the send handler path (src/app.py line 204):
`[var.strip() for var in template_variables_input.split(chr(10)) if var.strip()]`. -/
def parseVariables (input : String) : List String :=
  ((pySplitNL input).filter (fun var => ¬ isBlank var)).map pyStripStr

/-- The lines of the raw variable input that are not blank, untrimmed. -/
def nonBlankLines (input : String) : List String :=
  (pySplitNL input).filter (fun var => ¬ isBlank var)

/-- One text-typed parameter of a body component. -/
def mkTextParam (s : String) : Json :=
  Json.obj [("type", Json.str "text"), ("text", Json.str s)]

/-- Outcome of the `requests.post` call in `send_template_message`. -/
inductive HttpResult where
  | ok : Json → HttpResult
  | httpErr : String → Json → HttpResult
  | transportErr : String → HttpResult

/-- True for the oracle outcome in which `requests.post` itself raises,
leaving the local `response` unbound. -/
def isTransportErr : HttpResult → Bool
  | .transportErr _ => true
  | _ => false

/-- The HTTP POST request `send_template_message` issues: target URL,
bearer token of the Authorization header, and JSON body. -/
structure HttpRequest where
  url : String
  bearer : String
  body : Json

/-- The request `send_template_message` builds (src/app.py lines 53-73):
the `components` list is empty when `variables` is falsy and otherwise
holds one body component; the `data` dict carries the "components" key in
either case. -/
def mkSendRequest (token phone_id to_phone_number template_name : String)
    (vars : List String) : HttpRequest :=
  let components : List Json :=
    if vars.isEmpty then []
    else [Json.obj [("type", Json.str "body"),
      ("parameters", Json.arr (vars.map mkTextParam))]]
  let data := Json.obj [
    ("messaging_product", Json.str "whatsapp"),
    ("to", Json.str to_phone_number),
    ("type", Json.str "template"),
    ("template", Json.obj [
      ("name", Json.str template_name),
      ("language", Json.obj [("code", Json.str "en_US")]),
      ("components", Json.arr components)])]
  ⟨s!"https://graph.facebook.com/v19.0/{phone_id}/messages", token, data⟩

/-- Embedding of `send_template_message` (src/app.py lines 39-79): the
issued request paired with the returned dict, or the exception that
escapes. A 2xx response yields the success dict; a non-2xx response makes
`raise_for_status` raise a `RequestException`, which the handler turns
into the failure dict using the bound `response`; if `requests.post`
itself raises, the handler evaluates `response.json()` with `response`
unbound and an `UnboundLocalError` escapes uncaught. -/
def send_template_message (oracle : HttpResult)
    (token phone_id to_phone_number template_name : String)
    (vars : List String) : HttpRequest × Except PyError Json :=
  let req := mkSendRequest token phone_id to_phone_number template_name vars
  match oracle with
  | .ok respBody =>
    (req, .ok (Json.obj [("success", Json.bool true), ("data", respBody)]))
  | .httpErr msg respBody =>
    (req, .ok (Json.obj [("success", Json.bool false),
      ("error", Json.str msg), ("details", respBody)]))
  | .transportErr _ => (req, .error (.unboundLocalError "response"))

/-- Field lookup on a JSON object, for stating payload properties. -/
def jsonField (j : Json) (key : String) : Option Json :=
  match j with
  | .obj kvs => kvs.lookup key
  | _ => none

/-- The "components" value inside the "template" object of a payload. -/
def templateComponentsField (payload : Json) : Option Json :=
  (jsonField payload "template").bind (fun t => jsonField t "components")

/-- The parameter list of the single body component of a payload, when
the payload has exactly that shape. -/
def bodyParameters (payload : Json) : Option (List Json) :=
  match templateComponentsField payload with
  | some (.arr [Json.obj comp]) =>
    match comp.lookup "parameters" with
    | some (.arr ps) => some ps
    | _ => none
  | _ => none

/-- A cell of the uploaded CSV as pandas materialises it: a string or an
integer (phone columns read from CSV typically come back numeric). -/
inductive Cell where
  | str : String → Cell
  | int : Int → Cell
deriving DecidableEq

/-- Python `str(number)` on a cell value. -/
def pyStr : Cell → String
  | .str s => s
  | .int n => toString n

/-- A row of the edited dataframe: the "Send" checkbox plus the cell of
each named column. Columns are total, mirroring that the phone column is
chosen from the dataframe's own columns. -/
structure Row where
  send : Bool
  cells : String → Cell

/-- The edited dataframe. -/
structure DataFrame where
  rows : List Row

/-- One element of the `results` list of the send loop
(src/app.py line 220). -/
structure SendRecord where
  phone_number : Cell
  response : Json

/-- Which branch of the send-button handler ran: the three validation
warnings, the over-cap error, the empty-selection warning, a completed
loop, or a loop halted by an uncaught exception. -/
inductive SendStatus where
  | warnNoTemplate : SendStatus
  | warnNoCsv : SendStatus
  | warnNoPhoneCol : SendStatus
  | errOverCap : Nat → SendStatus
  | warnNoneSelected : SendStatus
  | completed : SendStatus
  | crashed : SendStatus
deriving DecidableEq

/-- Observable outcome of one press of the send button: the branch taken,
the accumulated `results` list, every HTTP POST issued in order, and the
exception that escaped the loop, if any. -/
structure HandlerResult where
  status : SendStatus
  results : List SendRecord
  calls : List HttpRequest
  uncaught : Option PyError

/-- The per-recipient send loop (src/app.py lines 215-221): one
`send_template_message` call per phone number, in order, each outcome
appended to `results`; an exception escaping a call aborts the rest of
the loop. The oracle gives the HTTP outcome of the i-th call. -/
def sendLoop (oracle : Nat → HttpResult) (token phone_id tmpl : String)
    (vars : List String) :
    List Cell → Nat → List SendRecord × List HttpRequest × Option PyError
  | [], _ => ([], [], none)
  | number :: rest, i =>
    let step := send_template_message (oracle i) token phone_id (pyStr number)
      tmpl vars
    match step.2 with
    | .ok resp =>
      let out := sendLoop oracle token phone_id tmpl vars rest (i + 1)
      (⟨number, resp⟩ :: out.1, step.1 :: out.2.1, out.2.2)
    | .error e => ([], [step.1], some e)

/-- Final assembly after the send loop (src/app.py lines 223-234): a loop
that ran to completion displays its results; an uncaught exception ends
the run before the results section. -/
def finishRun (out : List SendRecord × List HttpRequest × Option PyError) :
    HandlerResult :=
  match out.2.2 with
  | none => ⟨.completed, out.1, out.2.1, none⟩
  | some e => ⟨.crashed, out.1, out.2.1, some e⟩

/-- Embedding of the send-button handler (src/app.py lines 186-221):
the validation chain (`selected_template` defined, `edited_df` defined and
non-empty, `phone_col` defined and truthy), the hard cap of 250 on the
rows whose "Send" flag is set, the empty-selection warning, then the send
loop over the chosen phone column. -/
def sendButtonHandler (api_token phone_number_id : String)
    (selected_template : Option String) (edited_df : Option DataFrame)
    (phone_col : Option String) (template_variables_input : String)
    (oracle : Nat → HttpResult) : HandlerResult :=
  match selected_template with
  | none => ⟨.warnNoTemplate, [], [], none⟩
  | some tmpl =>
    match edited_df with
    | none => ⟨.warnNoCsv, [], [], none⟩
    | some df =>
      if df.rows.isEmpty then ⟨.warnNoCsv, [], [], none⟩
      else
        match phone_col with
        | none => ⟨.warnNoPhoneCol, [], [], none⟩
        | some col =>
          if col = "" then ⟨.warnNoPhoneCol, [], [], none⟩
          else
            let recipients_to_send := df.rows.filter (fun r => r.send)
            if recipients_to_send.length > 250 then
              ⟨.errOverCap recipients_to_send.length, [], [], none⟩
            else
              let phone_numbers := recipients_to_send.map (fun r => r.cells col)
              let vars := parseVariables template_variables_input
              if phone_numbers.isEmpty then ⟨.warnNoneSelected, [], [], none⟩
              else
                finishRun (sendLoop oracle api_token phone_number_id tmpl vars
                  phone_numbers 0)

/-- Outcome of one press of the fetch button. -/
inductive FetchAction where
  | fetched : List Json → FetchReport → FetchAction
  | credsError : FetchAction

/-- Embedding of the fetch-button handler (src/app.py lines 118-125): the
templates list is fetched only when both credentials are truthy; the
second component counts HTTP GET calls made. -/
def fetchButtonHandler (api_token waba_id : String) (oracle : FetchHttp) :
    FetchAction × Nat :=
  if api_token ≠ "" ∧ waba_id ≠ "" then
    let r := get_message_templates oracle
    (.fetched r.1 r.2, 1)
  else (.credsError, 0)

lemma send_template_message_fst (o : HttpResult)
    (token phone_id to_phone_number template_name : String)
    (vs : List String) :
    (send_template_message o token phone_id to_phone_number template_name vs).1
      = mkSendRequest token phone_id to_phone_number template_name vs := by
  cases o <;> rfl

lemma bodyParameters_mkSendRequest
    (token phone_id to_phone_number template_name : String)
    (vs : List String) (h : vs ≠ []) :
    bodyParameters (mkSendRequest token phone_id to_phone_number
        template_name vs).body
      = some (vs.map mkTextParam) := by
  cases vs with
  | nil => exact absurd rfl h
  | cons a l => rfl

/-- C4: for a template-listing response whose entries are objects carrying
a "name" key, the returned sequence is exactly the names of the entries
whose status is the string "APPROVED" (case-sensitive), in response
order. -/
theorem listing_filters_approved_exactly (ts : List Json)
    (h : ∀ t ∈ ts, isObjWithName t = true) :
    (get_message_templates (.ok (Json.obj [("data", Json.arr ts)]))).1
      = (ts.filter approvedStatus).map nameOf := by
  simp [get_message_templates, pyGetData, asList, approvedLoop_eq ts h,
    List.lookup, Bind.bind, Except.bind]

/-- Concrete listing used to instantiate the C4 theorem: a PENDING entry
and a lowercase "approved" entry are both dropped. -/
def listingSample : List Json :=
  [Json.obj [("name", Json.str "welcome"), ("status", Json.str "APPROVED")],
   Json.obj [("name", Json.str "promo"), ("status", Json.str "PENDING")],
   Json.obj [("name", Json.str "alert"), ("status", Json.str "approved")],
   Json.obj [("name", Json.str "hello"), ("status", Json.str "APPROVED")]]

/-- C4 witness: the theorem applied to `listingSample`. -/
theorem listing_filters_approved_exactly_witness :
    (∀ t ∈ listingSample, isObjWithName t = true)
    ∧ (get_message_templates
        (.ok (Json.obj [("data", Json.arr listingSample)]))).1
      = (listingSample.filter approvedStatus).map nameOf :=
  ⟨by decide, listing_filters_approved_exactly listingSample (by decide)⟩

/-- C7: a non-2xx response or a transport failure during template listing
makes the lister return the empty list and report the error instead of
raising, and the returned list is the same as that of a successful call
that found no approved templates. -/
theorem fetch_failure_empty_and_reported (msg : String) (body : Json) :
    get_message_templates (.httpErr msg body) = ([], .requestError msg)
    ∧ get_message_templates (.transportErr msg) = ([], .requestError msg)
    ∧ (get_message_templates (.httpErr msg body)).1
        = (get_message_templates (.ok (Json.obj [("data", Json.arr [])]))).1 :=
  ⟨rfl, rfl, rfl⟩

/-- C9: a 2xx response whose JSON object body has no "data" key makes the
lister return the empty list without raising, via the empty-collection
default. -/
theorem missing_data_key_defaults_empty (kvs : List (String × Json))
    (h : kvs.lookup "data" = none) :
    get_message_templates (.ok (Json.obj kvs)) = ([], .noError) := by
  simp [get_message_templates, pyGetData, h, asList, approvedLoop,
    Bind.bind, Except.bind]

/-- C9 witness: the theorem applied to a body holding only a "paging"
key. -/
theorem missing_data_key_defaults_empty_witness :
    ([(("paging" : String), Json.null)].lookup "data" = none)
    ∧ get_message_templates (.ok (Json.obj [("paging", Json.null)]))
        = ([], .noError) :=
  ⟨rfl, missing_data_key_defaults_empty [("paging", Json.null)] rfl⟩

/-- The payload built for a send request with empty variable input. -/
def emptyVarsPayload : Json :=
  (send_template_message (.ok Json.null) "token" "phoneid" "15550001111"
    "hello_world" (parseVariables "")).1.body

/-- C3 counterexample: with empty variable input the "components" field of
the template object is not absent — it is present and holds the empty
array. -/
theorem components_present_when_empty_counterexample :
    templateComponentsField emptyVarsPayload = some (Json.arr [])
    ∧ templateComponentsField emptyVarsPayload ≠ none := by
  refine ⟨rfl, ?_⟩
  intro h
  rw [show templateComponentsField emptyVarsPayload = some (Json.arr [])
    from rfl] at h
  exact Option.noConfusion h

/-- C3 amended: for every send request built with an empty variable input,
the template object of the outgoing payload carries a "components" field
holding the empty array (present-but-empty, not absent). -/
theorem components_empty_array_when_no_vars (o : HttpResult)
    (token phone_id to_phone_number template_name input : String)
    (h : parseVariables input = []) :
    templateComponentsField
      ((send_template_message o token phone_id to_phone_number template_name
        (parseVariables input)).1.body)
      = some (Json.arr []) := by
  rw [send_template_message_fst, h]
  rfl

/-- C3 amended witness: the theorem applied to a whitespace-only variable
input. -/
theorem components_empty_array_when_no_vars_witness :
    parseVariables "  \n " = []
    ∧ templateComponentsField
        ((send_template_message (.ok Json.null) "token" "phoneid"
          "15550001111" "hello_world" (parseVariables "  \n ")).1.body)
      = some (Json.arr []) :=
  ⟨by decide, components_empty_array_when_no_vars (.ok Json.null) "token"
    "phoneid" "15550001111" "hello_world" "  \n " (by decide)⟩

/-- C5: for a non-empty variable input, the body component's parameter
list has exactly one text-typed parameter per non-blank line of the raw
input, each trimmed, in line order. -/
theorem body_params_one_per_nonblank_line (o : HttpResult)
    (token phone_id to_phone_number template_name input : String)
    (h : parseVariables input ≠ []) :
    bodyParameters
      ((send_template_message o token phone_id to_phone_number template_name
        (parseVariables input)).1.body)
      = some ((nonBlankLines input).map (fun l => mkTextParam (pyStripStr l))) := by
  rw [send_template_message_fst,
    bodyParameters_mkSendRequest _ _ _ _ _ h]
  unfold parseVariables nonBlankLines
  rw [List.map_map]
  rfl

/-- C5 witness: the theorem applied to an input with a blank line and
surrounding whitespace. -/
theorem body_params_one_per_nonblank_line_witness :
    parseVariables "alice\n\n  bob  " ≠ []
    ∧ bodyParameters
        ((send_template_message (.ok Json.null) "token" "phoneid"
          "15550001111" "hello_world"
          (parseVariables "alice\n\n  bob  ")).1.body)
      = some ((nonBlankLines "alice\n\n  bob  ").map
          (fun l => mkTextParam (pyStripStr l))) :=
  ⟨by decide, body_params_one_per_nonblank_line (.ok Json.null) "token"
    "phoneid" "15550001111" "hello_world" "alice\n\n  bob  " (by decide)⟩

lemma sendLoop_no_transport (oracle : Nat → HttpResult)
    (token phone_id tmpl : String) (vs : List String) :
    ∀ (nums : List Cell) (i0 : Nat),
      (∀ j, j < nums.length → isTransportErr (oracle (i0 + j)) = false) →
      (sendLoop oracle token phone_id tmpl vs nums i0).2.2 = none
      ∧ (sendLoop oracle token phone_id tmpl vs nums i0).1.map
          (fun r => r.phone_number) = nums
      ∧ (sendLoop oracle token phone_id tmpl vs nums i0).2.1
          = nums.map (fun n => mkSendRequest token phone_id (pyStr n) tmpl vs) := by
  intro nums
  induction nums with
  | nil => intro i0 _; exact ⟨rfl, rfl, rfl⟩
  | cons n rest ih =>
    intro i0 h
    have h0 : isTransportErr (oracle i0) = false := by
      have := h 0 (Nat.succ_pos _)
      simpa using this
    have hrest : ∀ j, j < rest.length →
        isTransportErr (oracle (i0 + 1 + j)) = false := by
      intro j hj
      have := h (j + 1) (by simp only [List.length_cons]; omega)
      have heq : i0 + (j + 1) = i0 + 1 + j := by omega
      rw [heq] at this
      exact this
    obtain ⟨ih1, ih2, ih3⟩ := ih (i0 + 1) hrest
    cases hor : oracle i0 with
    | transportErr m =>
      rw [hor] at h0
      exact absurd h0 (by simp [isTransportErr])
    | ok b =>
      refine ⟨?_, ?_, ?_⟩ <;>
        simp [sendLoop, send_template_message, hor, ih1, ih2, ih3,
          send_template_message_fst]
    | httpErr m b =>
      refine ⟨?_, ?_, ?_⟩ <;>
        simp [sendLoop, send_template_message, hor, ih1, ih2, ih3,
          send_template_message_fst]

lemma handler_run (token phone_id tmpl input col : String) (df : DataFrame)
    (oracle : Nat → HttpResult)
    (hcol : col ≠ "")
    (hne : 0 < (df.rows.filter (fun r => r.send)).length)
    (hcap : (df.rows.filter (fun r => r.send)).length ≤ 250) :
    sendButtonHandler token phone_id (some tmpl) (some df) (some col) input
        oracle
      = finishRun (sendLoop oracle token phone_id tmpl (parseVariables input)
          ((df.rows.filter (fun r => r.send)).map (fun r => r.cells col)) 0) := by
  have hfil : df.rows.filter (fun r => r.send) ≠ [] :=
    List.length_pos.mp hne
  have hrows : df.rows.isEmpty = false := by
    cases hd : df.rows with
    | nil => rw [hd] at hfil; simp at hfil
    | cons a l => rfl
  have hmap : ((df.rows.filter (fun r => r.send)).map
      (fun r => r.cells col)).isEmpty = false := by
    cases hf : df.rows.filter (fun r => r.send) with
    | nil => exact absurd hf hfil
    | cons a l => rfl
  simp [sendButtonHandler, hrows, hcol, hmap, Nat.not_lt.mpr hcap]

lemma finishRun_none (out : List SendRecord × List HttpRequest × Option PyError)
    (h : out.2.2 = none) :
    finishRun out = ⟨.completed, out.1, out.2.1, none⟩ := by
  simp [finishRun, h]

/-- C1: when more than 250 of the uploaded rows keep the "Send" flag, the
handler rejects the run wholesale: the over-cap error is reported, no
HTTP call is issued and no per-recipient outcome is produced. -/
theorem over_cap_rejected_wholesale (token phone_id tmpl input col : String)
    (df : DataFrame) (oracle : Nat → HttpResult)
    (hcol : col ≠ "")
    (h : (df.rows.filter (fun r => r.send)).length > 250) :
    sendButtonHandler token phone_id (some tmpl) (some df) (some col) input
        oracle
      = ⟨.errOverCap (df.rows.filter (fun r => r.send)).length, [], [], none⟩ := by
  have hfil : df.rows.filter (fun r => r.send) ≠ [] := by
    intro hd
    rw [hd] at h
    simp at h
  have hrows : df.rows.isEmpty = false := by
    cases hd : df.rows with
    | nil => rw [hd] at hfil; simp at hfil
    | cons a l => rfl
  simp [sendButtonHandler, hrows, hcol, h]

/-- Dataframe of 251 selected rows, above the hard cap. -/
def dfOverCap : DataFrame :=
  ⟨List.replicate 251 ⟨true, fun _ => Cell.int 15550000000⟩⟩

set_option maxRecDepth 4000 in
/-- C1 witness: the theorem applied to a 251-row selection. -/
theorem over_cap_rejected_wholesale_witness :
    ("phone" : String) ≠ ""
    ∧ (dfOverCap.rows.filter (fun r => r.send)).length > 250
    ∧ sendButtonHandler "tk" "ph" (some "tmpl") (some dfOverCap)
        (some "phone") "" (fun _ => .ok Json.null)
      = ⟨.errOverCap (dfOverCap.rows.filter (fun r => r.send)).length,
          [], [], none⟩ :=
  ⟨by decide, by decide,
    over_cap_rejected_wholesale "tk" "ph" "tmpl" "" "phone" dfOverCap
      (fun _ => .ok Json.null) (by decide) (by decide)⟩

/-- Oracle for runs in which every HTTP call returns 2xx. -/
def okOracle : Nat → HttpResult := fun _ => .ok Json.null

/-- Dataframe with two selected rows around one deselected row; one phone
cell is numeric, one is a string. -/
def dfTwo : DataFrame :=
  ⟨[⟨true, fun _ => Cell.int 15550000001⟩,
    ⟨false, fun _ => Cell.int 15550000009⟩,
    ⟨true, fun _ => Cell.str "15550000002"⟩]⟩

lemma jsonField_mkSendRequest_to
    (token phone_id to_phone_number template_name : String)
    (vs : List String) :
    jsonField (mkSendRequest token phone_id to_phone_number
        template_name vs).body "to"
      = some (Json.str to_phone_number) := rfl

/-- C6: when at most 250 rows are selected and every call yields a
response, the run completes with exactly one recorded outcome per
selected recipient, in selection order. -/
theorem under_cap_one_outcome_per_recipient
    (token phone_id tmpl input col : String)
    (df : DataFrame) (oracle : Nat → HttpResult)
    (hcol : col ≠ "")
    (hne : 0 < (df.rows.filter (fun r => r.send)).length)
    (hcap : (df.rows.filter (fun r => r.send)).length ≤ 250)
    (hnt : ∀ j, j < (df.rows.filter (fun r => r.send)).length →
      isTransportErr (oracle j) = false) :
    (sendButtonHandler token phone_id (some tmpl) (some df) (some col) input
        oracle).status = .completed
    ∧ (sendButtonHandler token phone_id (some tmpl) (some df) (some col) input
        oracle).results.map (fun r => r.phone_number)
      = (df.rows.filter (fun r => r.send)).map (fun r => r.cells col)
    ∧ (sendButtonHandler token phone_id (some tmpl) (some df) (some col) input
        oracle).results.length
      = (df.rows.filter (fun r => r.send)).length := by
  have hnt2 : ∀ j, j < ((df.rows.filter (fun r => r.send)).map
      (fun r => r.cells col)).length →
      isTransportErr (oracle (0 + j)) = false := by
    intro j hj
    rw [Nat.zero_add]
    exact hnt j (by simpa using hj)
  obtain ⟨h1, h2, h3⟩ := sendLoop_no_transport oracle token phone_id tmpl
    (parseVariables input)
    ((df.rows.filter (fun r => r.send)).map (fun r => r.cells col)) 0 hnt2
  rw [handler_run token phone_id tmpl input col df oracle hcol hne hcap,
    finishRun_none _ h1]
  refine ⟨rfl, h2, ?_⟩
  have hlen := congrArg List.length h2
  simpa using hlen

/-- C6 witness: the theorem applied to the two-recipient selection. -/
theorem under_cap_one_outcome_per_recipient_witness :
    ("phone" : String) ≠ ""
    ∧ 0 < (dfTwo.rows.filter (fun r => r.send)).length
    ∧ (dfTwo.rows.filter (fun r => r.send)).length ≤ 250
    ∧ (∀ j, j < (dfTwo.rows.filter (fun r => r.send)).length →
        isTransportErr (okOracle j) = false)
    ∧ ((sendButtonHandler "tk" "ph" (some "t") (some dfTwo) (some "phone")
          "v1" okOracle).status = .completed
      ∧ (sendButtonHandler "tk" "ph" (some "t") (some dfTwo) (some "phone")
          "v1" okOracle).results.map (fun r => r.phone_number)
        = (dfTwo.rows.filter (fun r => r.send)).map (fun r => r.cells "phone")
      ∧ (sendButtonHandler "tk" "ph" (some "t") (some dfTwo) (some "phone")
          "v1" okOracle).results.length
        = (dfTwo.rows.filter (fun r => r.send)).length) :=
  ⟨by decide, by decide, by decide, by decide,
    under_cap_one_outcome_per_recipient "tk" "ph" "t" "v1" "phone" dfTwo
      okOracle (by decide) (by decide) (by decide) (by decide)⟩

/-- C10: every issued payload's "to" field is the `str()` rendering of the
value taken from the chosen phone column, also for numeric cells. -/
theorem to_field_is_pystr_of_cell (token phone_id tmpl input col : String)
    (df : DataFrame) (oracle : Nat → HttpResult)
    (hcol : col ≠ "")
    (hne : 0 < (df.rows.filter (fun r => r.send)).length)
    (hcap : (df.rows.filter (fun r => r.send)).length ≤ 250)
    (hnt : ∀ j, j < (df.rows.filter (fun r => r.send)).length →
      isTransportErr (oracle j) = false) :
    (sendButtonHandler token phone_id (some tmpl) (some df) (some col) input
        oracle).calls.map (fun req => jsonField req.body "to")
      = (df.rows.filter (fun r => r.send)).map
          (fun r => some (Json.str (pyStr (r.cells col)))) := by
  have hnt2 : ∀ j, j < ((df.rows.filter (fun r => r.send)).map
      (fun r => r.cells col)).length →
      isTransportErr (oracle (0 + j)) = false := by
    intro j hj
    rw [Nat.zero_add]
    exact hnt j (by simpa using hj)
  obtain ⟨h1, h2, h3⟩ := sendLoop_no_transport oracle token phone_id tmpl
    (parseVariables input)
    ((df.rows.filter (fun r => r.send)).map (fun r => r.cells col)) 0 hnt2
  rw [handler_run token phone_id tmpl input col df oracle hcol hne hcap,
    finishRun_none _ h1]
  show ((sendLoop oracle token phone_id tmpl (parseVariables input)
      ((df.rows.filter (fun r => r.send)).map (fun r => r.cells col)) 0)).2.1.map
      (fun req => jsonField req.body "to") = _
  rw [h3, List.map_map, List.map_map]
  rfl

/-- C10 witness: the theorem applied to the two-recipient selection with
one numeric and one string phone cell. -/
theorem to_field_is_pystr_of_cell_witness :
    ("phone" : String) ≠ ""
    ∧ 0 < (dfTwo.rows.filter (fun r => r.send)).length
    ∧ (dfTwo.rows.filter (fun r => r.send)).length ≤ 250
    ∧ (∀ j, j < (dfTwo.rows.filter (fun r => r.send)).length →
        isTransportErr (okOracle j) = false)
    ∧ (sendButtonHandler "tk" "ph" (some "t") (some dfTwo) (some "phone")
          "v1" okOracle).calls.map (fun req => jsonField req.body "to")
      = (dfTwo.rows.filter (fun r => r.send)).map
          (fun r => some (Json.str (pyStr (r.cells "phone")))) :=
  ⟨by decide, by decide, by decide, by decide,
    to_field_is_pystr_of_cell "tk" "ph" "t" "v1" "phone" dfTwo okOracle
      (by decide) (by decide) (by decide) (by decide)⟩

/-- Dataframe with three selected rows. -/
def dfThree : DataFrame :=
  ⟨[⟨true, fun _ => Cell.int 15550000001⟩,
    ⟨true, fun _ => Cell.int 15550000002⟩,
    ⟨true, fun _ => Cell.int 15550000003⟩]⟩

/-- Oracle whose second call (index 1) raises inside `requests.post`,
before the local `response` is bound. -/
def failSecondOracle : Nat → HttpResult :=
  fun i => if i = 1 then .transportErr "ConnectionError" else .ok Json.null

/-- C2: run at the failing input — three selected recipients with a
transport failure on the second call. The `except` handler of
`send_template_message` evaluates `response.json()` while `response` is
unbound, so an `UnboundLocalError` escapes: the run crashes, only two
HTTP calls are issued (the third recipient is never attempted) and only
the first recipient gets a recorded outcome, contradicting the claim that
every failure is recorded and the loop never halted. -/
theorem transport_failure_halts_loop :
    (sendButtonHandler "tk" "ph" (some "tmpl") (some dfThree) (some "phone")
        "" failSecondOracle).uncaught = some (.unboundLocalError "response")
    ∧ (sendButtonHandler "tk" "ph" (some "tmpl") (some dfThree) (some "phone")
        "" failSecondOracle).status = .crashed
    ∧ (sendButtonHandler "tk" "ph" (some "tmpl") (some dfThree) (some "phone")
        "" failSecondOracle).calls.length = 2
    ∧ (sendButtonHandler "tk" "ph" (some "tmpl") (some dfThree) (some "phone")
        "" failSecondOracle).results.length = 1 :=
  ⟨rfl, rfl, rfl, rfl⟩

/-- C8: missing credentials stop the fetch action before any HTTP call
(creds error reported, zero GET calls), and a send with the template, the
dataframe or the phone column missing issues zero HTTP calls. -/
theorem validation_blocks_network (tok waba tok2 pid input : String)
    (o1 : FetchHttp) (o2 : Nat → HttpResult) (tmpl col : Option String)
    (df : Option DataFrame) :
    ((tok = "" ∨ waba = "") →
      fetchButtonHandler tok waba o1 = (.credsError, 0))
    ∧ (sendButtonHandler tok2 pid none df col input o2).calls = []
    ∧ (sendButtonHandler tok2 pid tmpl none col input o2).calls = []
    ∧ (sendButtonHandler tok2 pid tmpl df none input o2).calls = [] := by
  refine ⟨?_, ?_, ?_, ?_⟩
  · intro h
    have hcond : ¬ (tok ≠ "" ∧ waba ≠ "") := by tauto
    simp [fetchButtonHandler, hcond]
  · rfl
  · cases tmpl <;> rfl
  · cases tmpl with
    | none => rfl
    | some t =>
      cases df with
      | none => rfl
      | some d =>
        by_cases hd : d.rows.isEmpty <;> simp [sendButtonHandler, hd]

/-- C8 witness: the theorem applied with an empty API token and with all
send inputs missing. -/
theorem validation_blocks_network_witness :
    fetchButtonHandler "" "waba123" (.transportErr "err") = (.credsError, 0)
    ∧ (sendButtonHandler "tk" "ph" none none none "" okOracle).calls = [] :=
  ⟨(validation_blocks_network "" "waba123" "tk" "ph" "" (.transportErr "err")
      okOracle none none none).1 (Or.inl rfl),
   (validation_blocks_network "" "waba123" "tk" "ph" "" (.transportErr "err")
      okOracle none none none).2.1⟩

end App
